import Mathlib

/-!
Verification development for the AlgoTrader backtest-report normalization
pipeline (`src/backtests/htmlparser.py`) and the currency-pair value type
(`src/currency/forexpair.py`).

The Python code is shallowly embedded: a pandas `DataFrame` whose cells are
raw strings becomes a `Table` record (column-name list, index labels, rows of
string cells); Python exceptions that a function can raise become an
`Except PyErr` result, with `PyErr` distinguishing the generic builtin
exception classes (`IndexError`, `KeyError`, `ValueError`) that the code can
raise.  Rows of unequal length (which pandas would pad with NaN) are not
modelled: every embedded table function guards on the uniform width the
format requires and maps ragged input to an error, mirroring the
`df.columns = [...]` length check; all inputs considered below have uniform
width, so the guard is never the deciding branch.
-/

namespace AlgoTrader

/-- Model of the Python builtin exceptions the parser module can raise. -/
inductive PyErr where
  | indexError : PyErr
  | keyError : PyErr
  | valueError : PyErr
deriving DecidableEq

/-- Shallow embedding of a pandas DataFrame at the text stage: named columns,
an optional index name, index labels (rendered as strings), and rows of raw
string cells. -/
structure Table where
  idxName : Option String
  index : List String
  cols : List String
  rows : List (List String)
deriving DecidableEq

/-- `COLUMNS_FOR_MT4_FROM_HTML` from `htmlparser.py` (values of the dict, in
key order 1..10).  The last entry is spelled `"Balace"` in the source. -/
def COLUMNS_FOR_MT4_FROM_HTML : List String :=
  ["#", "Time", "Type", "Order#", "Volume", "Price", "SL", "TP", "Profit", "Balace"]

/-- `COLUMNS_FOR_GBX_FROM_HTML` from `htmlparser.py` (values of the dict, in
key order 1..14). -/
def COLUMNS_FOR_GBX_FROM_HTML : List String :=
  ["Order#", "OpenTime", "Type", "Volume", "Symbol", "OpenPrice", "SL", "TP",
   "CloseTime", "ClosePrice", "Commission", "Taxes", "Swap", "Profit"]

/-- The canonical 13-name operations column sequence (spec section 6). -/
def CANONICAL_OPS_COLUMNS : List String :=
  ["OpenTime", "Type", "Volume", "Symbol", "OpenPrice", "SL", "TP",
   "CloseTime", "ClosePrice", "Commission", "Taxes", "Swap", "Profit"]

/-- Modelled from the spec: the schema validator `is_ops_df_valid` is imported
by `tests/unit/test_htmlparser.py` but absent from the `src/` sources, so it
is modelled from spec section 4.6: true iff the table's column name sequence
exactly equals the canonical 13-name sequence, in order, with no extras and
no omissions. -/
def is_ops_df_valid (t : Table) : Bool :=
  t.cols == CANONICAL_OPS_COLUMNS

/-! ## Format normalizers (`src/backtests/htmlparser.py`)

A raw HTML table (the output of `extract_dfs_from_html_tables`) is a list of
rows of trimmed cell strings.  `pd.Series.__getitem__` with an integer key on
a string-labelled index resolves positionally, so `s[0]` is the first element
and `s[-1]` the last one; the embeddings below use head/last accordingly. -/

/-- `extract_mt4_operations_information`: drops the raw table's first row,
assigns the fixed 10-name MT column set, and sets the first column (`"#"`)
as the index, which removes it from the columns.  Assigning the 10 names
requires the frame to be 10 columns wide (otherwise pandas raises
`ValueError`). -/
def extract_mt4_operations_information (raw : List (List String)) :
    Except PyErr Table :=
  if raw.all (fun r => r.length == 10) && !raw.isEmpty then
    let body := raw.drop 1
    .ok { idxName := some "#",
          index := body.map (fun r => r.headD ""),
          cols := COLUMNS_FOR_MT4_FROM_HTML.drop 1,
          rows := body.map (fun r => r.drop 1) }
  else .error .valueError

/-- `extract_gbx_operations_information`: drops the first 4 rows, assigns the
fixed 14-name GBX column set (requiring width 14), removes the sentinel rows
whose `Order#` cell is empty, drops the `Order#` column, resets the index
(renamed `"#"`), computes the flag as the first value of `Type` among the
remaining rows (`unique()[0]` raises `IndexError` on an empty frame), and
drops every row after the last row whose `Type` equals the flag.
`gbxTrailingPrune` is the part of the function that runs after the sentinel
rows and the `Order#` column have been removed. -/
def gbxTrailingPrune : List (List String) → Except PyErr Table
  | [] => .error .indexError
  | first :: rest =>
    let body := first :: rest
    let flag := first.getD 1 ""
    let typeVals := body.map (fun r => r.getD 1 "")
    let lastIdx := body.length - 1 - typeVals.reverse.findIdx (fun t => t == flag)
    let keptBody := body.take (lastIdx + 1)
    .ok { idxName := some "#",
          index := (List.range keptBody.length).map (fun n => toString n),
          cols := COLUMNS_FOR_GBX_FROM_HTML.drop 1,
          rows := keptBody }

def extract_gbx_operations_information (raw : List (List String)) :
    Except PyErr Table :=
  if raw.all (fun r => r.length == 14) && !raw.isEmpty then
    gbxTrailingPrune (((raw.drop 4).filter (fun r => r.headD "" != "")).map
      (fun r => r.drop 1))
  else .error .valueError

/-- First-seen-order deduplication, as `pd.Series.unique().tolist()`. -/
def firstSeenUniqueAux (seen : List String) : List String → List String
  | [] => []
  | x :: xs =>
    if x ∈ seen then firstSeenUniqueAux seen xs
    else x :: firstSeenUniqueAux (x :: seen) xs

def firstSeenUnique (l : List String) : List String :=
  firstSeenUniqueAux [] l

/-- Positions of the column names `transform_mt4_to_gbx` accesses
(`Order#`, `Time`, `Type`, `Volume`, `Price`, `SL`, `TP`, `Profit`); a name
missing from the frame would raise `KeyError`. -/
def lookupMtCols (bt : Table) :
    Option (Nat × Nat × Nat × Nat × Nat × Nat × Nat × Nat) := do
  let iOrd ← bt.cols.findIdx? (fun c => c == "Order#")
  let iTime ← bt.cols.findIdx? (fun c => c == "Time")
  let iTyp ← bt.cols.findIdx? (fun c => c == "Type")
  let iVol ← bt.cols.findIdx? (fun c => c == "Volume")
  let iPrc ← bt.cols.findIdx? (fun c => c == "Price")
  let iSL ← bt.cols.findIdx? (fun c => c == "SL")
  let iTP ← bt.cols.findIdx? (fun c => c == "TP")
  let iPrf ← bt.cols.findIdx? (fun c => c == "Profit")
  pure (iOrd, iTime, iTyp, iVol, iPrc, iSL, iTP, iPrf)

/-- `transform_mt4_to_gbx`: for each distinct `Order#` value in first-seen
order, filter the group of rows carrying it; the open-side fields come from
the group's first row and the close-side fields from its last row
(`df[col][0]` / `df[col][-1]`, positional on the string index); `Symbol` is
left blank and `Commission`/`Taxes`/`Swap` fixed to the text `"0"`.  The
result gets the 14 GBX column names (pandas raises `ValueError` when the
collected list is empty, since the empty frame has 0 columns) and is indexed
by `Order#`, renamed `"#"`.  `mtAggregatedRow` builds one canonical row for
one order id, and `mtCollectOps` assembles the output frame. -/
def mtAggregatedRow (bt : Table)
    (iOrd iTime iTyp iVol iPrc iSL iTP iPrf : Nat) (op : String) :
    List String :=
  let grp := bt.rows.filter (fun r => r.getD iOrd "" == op)
  let first := grp.headD []
  let last := grp.getLastD []
  [first.getD iTime "", first.getD iTyp "", first.getD iVol "", "",
   first.getD iPrc "", first.getD iSL "", first.getD iTP "",
   last.getD iTime "", last.getD iPrc "", "0", "0", "0",
   last.getD iPrf ""]

def mtCollectOps (bt : Table)
    (iOrd iTime iTyp iVol iPrc iSL iTP iPrf : Nat) :
    Except PyErr Table :=
  if (firstSeenUnique (bt.rows.map (fun r => r.getD iOrd ""))).isEmpty then
    .error .valueError
  else
    .ok { idxName := some "#",
          index := firstSeenUnique (bt.rows.map (fun r => r.getD iOrd "")),
          cols := COLUMNS_FOR_GBX_FROM_HTML.drop 1,
          rows := (firstSeenUnique (bt.rows.map (fun r => r.getD iOrd ""))).map
            (mtAggregatedRow bt iOrd iTime iTyp iVol iPrc iSL iTP iPrf) }

def transform_mt4_to_gbx (bt : Table) : Except PyErr Table :=
  match lookupMtCols bt with
  | none => .error .keyError
  | some (iOrd, iTime, iTyp, iVol, iPrc, iSL, iTP, iPrf) =>
    mtCollectOps bt iOrd iTime iTyp iVol iPrc iSL iTP iPrf

/-- `get_mt4_operations`, from the list of raw tables extracted from the
report's HTML (file reading and HTML parsing are external collaborators):
Stage A on the second table, then the MT aggregator.  The `# TODO: Transform
columns in a proper datatype` step of the source is absent: the text table is
returned unchanged. -/
def get_mt4_operations (tables : List (List (List String))) :
    Except PyErr Table :=
  match tables.get? 1 with
  | none => .error .indexError
  | some raw =>
    match extract_mt4_operations_information raw with
    | .error e => .error e
    | .ok stageA => transform_mt4_to_gbx stageA

/-- `get_gbx_operations`, from the list of raw tables extracted from the
report's HTML: the GBX normalizer on the first table.  As in the MT entry
point, the datatype-transformation step is a TODO in the source and absent. -/
def get_gbx_operations (tables : List (List (List String))) :
    Except PyErr Table :=
  match tables.get? 0 with
  | none => .error .indexError
  | some raw => extract_gbx_operations_information raw

/-! ## Header parser (`extract_header_information` and its helpers)

The two regular expressions of the source are fixed patterns; they are
embedded as character-level scanners with the same semantics as `re.findall`
on ASCII text: scan positions left to right, at each position try the
(greedy) match, and on success continue after the match (non-overlapping
leftmost matches). -/

/-- Python `datetime` restricted to the fields `strptime` fills here. -/
structure PyDateTime where
  year : Nat
  month : Nat
  day : Nat
  hour : Nat
  minute : Nat
deriving DecidableEq

/-- One match of `\d{4}\.\d{2}\.\d{2}(?: \d{2}:\d{2})?` anchored at the head
of the input: the optional time part is tried greedily first, backtracking to
the date-only match when it fails.  Returns the matched characters and the
remaining input. -/
def matchDate : List Char → Option (List Char × List Char)
  | y1 :: y2 :: y3 :: y4 :: '.' :: m1 :: m2 :: '.' :: d1 :: d2 :: rest =>
    if y1.isDigit && y2.isDigit && y3.isDigit && y4.isDigit &&
        m1.isDigit && m2.isDigit && d1.isDigit && d2.isDigit then
      match rest with
      | ' ' :: h1 :: h2 :: ':' :: n1 :: n2 :: rest2 =>
        if h1.isDigit && h2.isDigit && n1.isDigit && n2.isDigit then
          some ([y1, y2, y3, y4, '.', m1, m2, '.', d1, d2, ' ', h1, h2, ':', n1, n2],
                rest2)
        else some ([y1, y2, y3, y4, '.', m1, m2, '.', d1, d2], rest)
      | _ => some ([y1, y2, y3, y4, '.', m1, m2, '.', d1, d2], rest)
    else none
  | _ => none

def findAllDatesAux : Nat → List Char → List String
  | 0, _ => []
  | _, [] => []
  | fuel + 1, c :: cs =>
    match matchDate (c :: cs) with
    | some (m, rest) => String.mk m :: findAllDatesAux fuel rest
    | none => findAllDatesAux fuel cs

/-- `parse_dates_and_times_from_string`: all non-overlapping matches of the
date/time pattern, in order.  The fuel (one unit per consumed character)
covers the whole input. -/
def parse_dates_and_times_from_string (text : String) : List String :=
  findAllDatesAux text.data.length text.data

/-- The character class `[A-Z0-9]`. -/
def isUpperOrDigitChar (c : Char) : Bool :=
  (65 ≤ c.toNat && c.toNat ≤ 90) || c.isDigit

/-- One match of `\(([A-Z0-9]{2})\)` anchored at the head of the input,
returning the captured group and the remaining input. -/
def matchTFGroup : List Char → Option (String × List Char)
  | '(' :: a :: b :: ')' :: rest =>
    if isUpperOrDigitChar a && isUpperOrDigitChar b then
      some (String.mk [a, b], rest)
    else none
  | _ => none

def findAllTFsAux : Nat → List Char → List String
  | 0, _ => []
  | _, [] => []
  | fuel + 1, c :: cs =>
    match matchTFGroup (c :: cs) with
    | some (g, rest) => g :: findAllTFsAux fuel rest
    | none => findAllTFsAux fuel cs

/-- `parse_timeframe_from_string`: the first captured timeframe group;
`findall(...)[0]` raises `IndexError` when there is no match. -/
def parse_timeframe_from_string (text : String) : Except PyErr String :=
  match findAllTFsAux text.data.length text.data with
  | [] => .error .indexError
  | tf :: _ => .ok tf

def digitsToNat (cs : List Char) : Nat :=
  cs.foldl (fun acc c => acc * 10 + (c.toNat - 48)) 0

/-- Day count per month, as `datetime` validates it. -/
def daysInMonth (y m : Nat) : Nat :=
  if m = 2 then
    if (y % 4 = 0 && y % 100 ≠ 0) || y % 400 = 0 then 29 else 28
  else if m = 4 || m = 6 || m = 9 || m = 11 then 30 else 31

/-- `strptime(s, "%Y.%m.%d")` on the exact 10-character shape. -/
def parseDateOnly : List Char → Option PyDateTime
  | [y1, y2, y3, y4, '.', m1, m2, '.', d1, d2] =>
    if y1.isDigit && y2.isDigit && y3.isDigit && y4.isDigit &&
        m1.isDigit && m2.isDigit && d1.isDigit && d2.isDigit then
      let y := digitsToNat [y1, y2, y3, y4]
      let mo := digitsToNat [m1, m2]
      let d := digitsToNat [d1, d2]
      if 1 ≤ y && 1 ≤ mo && mo ≤ 12 && 1 ≤ d && d ≤ daysInMonth y mo then
        some ⟨y, mo, d, 0, 0⟩
      else none
    else none
  | _ => none

/-- `strptime(s, "%Y.%m.%d %H:%M")` on the exact 16-character shape. -/
def parseDateWithTime : List Char → Option PyDateTime
  | [y1, y2, y3, y4, '.', m1, m2, '.', d1, d2, ' ', h1, h2, ':', n1, n2] =>
    if y1.isDigit && y2.isDigit && y3.isDigit && y4.isDigit &&
        m1.isDigit && m2.isDigit && d1.isDigit && d2.isDigit &&
        h1.isDigit && h2.isDigit && n1.isDigit && n2.isDigit then
      let y := digitsToNat [y1, y2, y3, y4]
      let mo := digitsToNat [m1, m2]
      let d := digitsToNat [d1, d2]
      let h := digitsToNat [h1, h2]
      let n := digitsToNat [n1, n2]
      if 1 ≤ y && 1 ≤ mo && mo ≤ 12 && 1 ≤ d && d ≤ daysInMonth y mo &&
          h ≤ 23 && n ≤ 59 then
        some ⟨y, mo, d, h, n⟩
      else none
    else none
  | _ => none

/-- `convert_to_datetime`: the long format when the string has more than 10
characters, the date-only format otherwise; `strptime` raises `ValueError`
when the string does not fit the chosen format. -/
def convert_to_datetime (str_date : String) : Except PyErr PyDateTime :=
  if str_date.length > 10 then
    match parseDateWithTime str_date.data with
    | some d => .ok d
    | none => .error .valueError
  else
    match parseDateOnly str_date.data with
    | some d => .ok d
    | none => .error .valueError

/-- Python `str.split(sep)` for a one-character separator: consecutive
separators produce empty fragments and the empty string splits to one empty
fragment. -/
def splitCharAux (sep : Char) : List Char → List Char → List String
  | [], acc => [String.mk acc.reverse]
  | c :: cs, acc =>
    if c = sep then String.mk acc.reverse :: splitCharAux sep cs []
    else splitCharAux sep cs (c :: acc)

def pySplitChar (sep : Char) (s : String) : List String :=
  splitCharAux sep s.data []

/-- Python `str.strip()`: removes whitespace from both ends. -/
def pyStrip (s : String) : String :=
  String.mk (((s.data.dropWhile Char.isWhitespace).reverse.dropWhile
    Char.isWhitespace).reverse)

/-- Insertion-ordered dict update `params[key] = value`. -/
def dictInsert (params : List (String × String)) (key value : String) :
    List (String × String) :=
  if params.any (fun kv => kv.fst == key) then
    params.map (fun kv => if kv.fst == key then (key, value) else kv)
  else params ++ [(key, value)]

/-- `parse_ea_parameters`: split on `;`, drop empty fragments, then unpack
each fragment as `key, value = elem.split('=')` — a fragment that does not
split into exactly two parts raises `ValueError` — trimming both sides. -/
def parse_ea_parameters (text : String) : Except PyErr (List (String × String)) :=
  let elems := (pySplitChar ';' text).filter (fun e => e != "")
  elems.foldlM (fun params elem =>
    match pySplitChar '=' elem with
    | [k, v] => .ok (dictInsert params (pyStrip k) (pyStrip v))
    | _ => .error .valueError) []

/-- The header record, with the keys of `HEADER_KEYS` in order. -/
structure HeaderInfo where
  Symbol : String
  TF : String
  HistBeginning : PyDateTime
  HistEnding : PyDateTime
  BTBeginning : PyDateTime
  BTEnding : PyDateTime
  EAParams : List (String × String)
deriving DecidableEq

/-- `pd.Series.__getitem__` with an in-range label on a default range index;
a missing label raises `KeyError`. -/
def seriesGet (col : List String) (i : Nat) : Except PyErr String :=
  match col.get? i with
  | some s => .ok s
  | none => .error .keyError

/-- `extract_header_information`: the data column is the table's second
column; the dates and the timeframe come from its row 1, the EA parameters
from its row 3, and the symbol is the first space-delimited token of its
row 0.  Sub-steps run in source order, so their exceptions surface in that
order, and the four timestamps are read positionally from the date list
(fewer than four raises `IndexError` at `dates_as_dt[...]`). -/
def extract_header_information (raw : List (List String)) :
    Except PyErr HeaderInfo :=
  if raw.all (fun r => 2 ≤ r.length) then do
    let data_col := raw.map (fun r => r.getD 1 "")
    let row1 ← seriesGet data_col 1
    let dates_as_dt ← (parse_dates_and_times_from_string row1).mapM convert_to_datetime
    let timeframe ← parse_timeframe_from_string row1
    let row3 ← seriesGet data_col 3
    let ea_params ← parse_ea_parameters row3
    let row0 ← seriesGet data_col 0
    match dates_as_dt with
    | d0 :: d1 :: d2 :: d3 :: _ =>
      pure { Symbol := (pySplitChar ' ' row0).headD "", TF := timeframe,
             HistBeginning := d0, HistEnding := d1, BTBeginning := d2,
             BTEnding := d3, EAParams := ea_params }
    | _ => .error .indexError
  else .error .indexError

/-! ## Concrete report tables used by the claims -/

/-- A decorative 10-cell title row, dropped by Stage A. -/
def mtTitleRow : List String :=
  ["#", "Time", "Type", "Order", "Size", "Price", "S / L", "T / P", "Profit", "Balance"]

/-- Raw MT operations table: title row, then the open and close legs of
order 5 (the two rows of the spec's MT-aggregation example). -/
def mtRawDemo : List (List String) :=
  [mtTitleRow,
   ["1", "2020.01.02 10:00", "Buy", "5", "0.10", "1.1000", "1.0900", "1.1200", "0", "1000"],
   ["2", "2020.01.03 16:00", "close", "5", "0.10", "1.1050", "1.0900", "1.1200", "50", "1050"]]

/-- The Stage-A table for `mtRawDemo` (also the Stage-A MT table of the
MT-aggregation example). -/
def mtStageA : Table :=
  { idxName := some "#",
    index := ["1", "2"],
    cols := ["Time", "Type", "Order#", "Volume", "Price", "SL", "TP", "Profit", "Balace"],
    rows := [["2020.01.02 10:00", "Buy", "5", "0.10", "1.1000", "1.0900", "1.1200", "0", "1000"],
             ["2020.01.03 16:00", "close", "5", "0.10", "1.1050", "1.0900", "1.1200", "50", "1050"]] }

/-- The canonical operation row the MT aggregator produces for order 5. -/
def mtAggRow : List String :=
  ["2020.01.02 10:00", "Buy", "0.10", "", "1.1000", "1.0900", "1.1200",
   "2020.01.03 16:00", "1.1050", "0", "0", "0", "50"]

/-- A decorative 14-cell GBX title/summary row (not a data row; removed with
the first four rows of the raw table). -/
def gbxTitleRow : List String :=
  ["Genbox report", "", "", "", "", "", "", "", "", "", "", "", "", ""]

/-- First genuine GBX data row. -/
def gbxData1 : List String :=
  ["1", "2020.01.02 10:00", "Buy", "0.10", "AUDJPY", "1.1000", "1.0900", "1.1200",
   "2020.01.03 16:00", "1.1050", "0", "0", "0", "50"]

/-- Second genuine GBX data row. -/
def gbxData2 : List String :=
  ["2", "2020.01.04 10:00", "Buy", "0.10", "AUDJPY", "1.1010", "1.0910", "1.1210",
   "2020.01.05 16:00", "1.1060", "0", "0", "0", "40"]

/-- A sentinel row: its `Order#` cell is the empty string. -/
def gbxSentinelRow : List String :=
  ["", "", "", "", "", "", "", "", "", "", "", "", "", ""]

/-- A trailing footer row that reuses the table structure and carries
`Type="Buy"` like the data rows. -/
def gbxFooterRow : List String :=
  ["Total", "2020.01.06 10:00", "Buy", "0.20", "", "", "", "", "", "", "", "", "", "90"]

/-- The GBX-pruning example input: 4 header rows, 2 data rows with
`Type="Buy"`, 1 sentinel row, 1 trailing footer row with `Type="Buy"`. -/
def gbxRawDemo : List (List String) :=
  [gbxTitleRow, gbxTitleRow, gbxTitleRow, gbxTitleRow,
   gbxData1, gbxData2, gbxSentinelRow, gbxFooterRow]

/-- What the GBX normalizer actually returns on `gbxRawDemo`. -/
def gbxDemoOut : Table :=
  { idxName := some "#",
    index := ["0", "1", "2"],
    cols := CANONICAL_OPS_COLUMNS,
    rows := [gbxData1.drop 1, gbxData2.drop 1, gbxFooterRow.drop 1] }

/-- A GBX raw table that is empty after dropping the 4 header rows and
removing the sentinel rows. -/
def gbxRawEmpty : List (List String) :=
  [gbxTitleRow, gbxTitleRow, gbxTitleRow, gbxTitleRow, gbxSentinelRow]

/-- A Stage-A MT table in which order 5 occurs in exactly one row. -/
def mtStageASingle : Table :=
  { idxName := some "#",
    index := ["1"],
    cols := ["Time", "Type", "Order#", "Volume", "Price", "SL", "TP", "Profit", "Balace"],
    rows := [["2020.01.02 10:00", "Buy", "5", "0.10", "1.1000", "1.0900", "1.1200", "0", "1000"]] }

/-- The MT header table of the header round-trip example: the data column
(second column) holds the symbol field on row 0, the dates and the timeframe
token on row 1, and the parameters on row 3. -/
def mtHeaderDemo : List (List String) :=
  [["Symbol", "AUDJPY (AUD/JPY)"],
   ["Period", "(H4) 2020.01.01 - 2020.06.01 2020.06.02 - 2020.06.02 14:30"],
   ["Model", "Every tick"],
   ["Parameters", "Lots=0.10;Risk=2"]]

/-- `mtHeaderDemo` with only three dates on the dates row. -/
def mtHeaderThreeDates : List (List String) :=
  [["Symbol", "AUDJPY (AUD/JPY)"],
   ["Period", "(H4) 2020.01.01 - 2020.06.01 2020.06.02"],
   ["Model", "Every tick"],
   ["Parameters", "Lots=0.10;Risk=2"]]

/-- `mtHeaderDemo` with no parenthesised timeframe token. -/
def mtHeaderNoTF : List (List String) :=
  [["Symbol", "AUDJPY (AUD/JPY)"],
   ["Period", "2020.01.01 - 2020.06.01 2020.06.02 - 2020.06.02 14:30"],
   ["Model", "Every tick"],
   ["Parameters", "Lots=0.10;Risk=2"]]

/-- `mtHeaderDemo` with a non-empty parameter fragment that has no `=`. -/
def mtHeaderBadParam : List (List String) :=
  [["Symbol", "AUDJPY (AUD/JPY)"],
   ["Period", "(H4) 2020.01.01 - 2020.06.01 2020.06.02 - 2020.06.02 14:30"],
   ["Model", "Every tick"],
   ["Parameters", "Lots=0.10;Risk"]]

/-! ## Column-schema lemmas -/

theorem gbxTrailingPrune_ok_cols (body : List (List String)) (t : Table)
    (h : gbxTrailingPrune body = .ok t) :
    t.cols = CANONICAL_OPS_COLUMNS := by
  cases body with
  | nil => cases h
  | cons first rest =>
    injection h with h
    subst h
    rfl

theorem extract_gbx_ok_cols (raw : List (List String)) (t : Table)
    (h : extract_gbx_operations_information raw = .ok t) :
    t.cols = CANONICAL_OPS_COLUMNS := by
  unfold extract_gbx_operations_information at h
  split at h
  · exact gbxTrailingPrune_ok_cols _ _ h
  · cases h

theorem transform_mt4_ok_cols (bt : Table) (t : Table)
    (h : transform_mt4_to_gbx bt = .ok t) :
    t.cols = CANONICAL_OPS_COLUMNS := by
  unfold transform_mt4_to_gbx at h
  split at h
  · cases h
  · unfold mtCollectOps at h
    split at h
    · cases h
    · injection h with h
      subst h
      rfl

/-- The table `transform_mt4_to_gbx` returns on `mtStageA`. -/
def mtAggOut : Table :=
  { idxName := some "#", index := ["5"], cols := CANONICAL_OPS_COLUMNS,
    rows := [mtAggRow] }

/-- The table `transform_mt4_to_gbx` returns on `mtStageASingle`: the
open-side and close-side fields are both drawn from the one input row. -/
def mtSingleOut : Table :=
  { idxName := some "#", index := ["5"], cols := CANONICAL_OPS_COLUMNS,
    rows := [["2020.01.02 10:00", "Buy", "0.10", "", "1.1000", "1.0900", "1.1200",
              "2020.01.02 10:00", "1.1000", "0", "0", "0", "0"]] }

/-! ## Claims about the normalizers and entry points -/

/-- C1: whenever either top-level operations entry point returns a table,
that table's column name sequence is exactly the canonical 13-name sequence
`OpenTime, Type, Volume, Symbol, OpenPrice, SL, TP, CloseTime, ClosePrice,
Commission, Taxes, Swap, Profit`, in order, with no extras and no omissions,
and the schema validator `is_ops_df_valid` returns true on it. -/
theorem C1_entry_points_canonical_schema :
    ∀ (tables : List (List (List String))) (t : Table),
      (get_mt4_operations tables = .ok t →
        t.cols = CANONICAL_OPS_COLUMNS ∧ is_ops_df_valid t = true)
      ∧ (get_gbx_operations tables = .ok t →
        t.cols = CANONICAL_OPS_COLUMNS ∧ is_ops_df_valid t = true) := by
  intro tables t
  constructor
  · intro h
    unfold get_mt4_operations at h
    split at h
    · cases h
    · split at h
      · cases h
      · have hc := transform_mt4_ok_cols _ _ h
        exact ⟨hc, by simp [is_ops_df_valid, hc]⟩
  · intro h
    unfold get_gbx_operations at h
    split at h
    · cases h
    · have hc := extract_gbx_ok_cols _ _ h
      exact ⟨hc, by simp [is_ops_df_valid, hc]⟩

/-- Witness for C1: a concrete MT report (header table plus `mtRawDemo`) and
a concrete GBX report (`gbxRawDemo`) on which the entry points succeed, with
canonical columns and a true validator verdict. -/
theorem C1_entry_points_canonical_schema_witness :
    (get_mt4_operations [[["x"]], mtRawDemo] = .ok mtAggOut
      ∧ mtAggOut.cols = CANONICAL_OPS_COLUMNS ∧ is_ops_df_valid mtAggOut = true)
    ∧ (get_gbx_operations [gbxRawDemo] = .ok gbxDemoOut
      ∧ gbxDemoOut.cols = CANONICAL_OPS_COLUMNS
      ∧ is_ops_df_valid gbxDemoOut = true) := by
  have h1 := (C1_entry_points_canonical_schema [[["x"]], mtRawDemo] mtAggOut).1 rfl
  have h2 := (C1_entry_points_canonical_schema [gbxRawDemo] gbxDemoOut).2 rfl
  exact ⟨⟨rfl, h1⟩, rfl, h2⟩

/-- Counterexample to C2 as stated: on the 4-header / 2-data / 1-sentinel /
1-footer input, the GBX normalizer does not return only the 2 genuine data
rows — the trailing footer row survives, because its `Type` cell equals the
data flag `"Buy"`, so the last row whose `Type` equals the flag is the footer
itself and nothing is dropped after it. -/
theorem C2_counterexample :
    extract_gbx_operations_information gbxRawDemo = .ok gbxDemoOut
    ∧ gbxDemoOut.rows ≠ [gbxData1.drop 1, gbxData2.drop 1] :=
  ⟨rfl, by decide⟩

/-- C2 (amended): on that input the GBX normalizer returns the 2 genuine
data rows followed by the trailing footer row — 3 rows in all — since the
footer's `Type` equals the first observed `Type` flag and the
trailing-boundary rule therefore keeps it. -/
theorem C2_gbx_pruning_keeps_matching_footer :
    extract_gbx_operations_information gbxRawDemo =
      .ok { idxName := some "#", index := ["0", "1", "2"],
            cols := CANONICAL_OPS_COLUMNS,
            rows := [gbxData1.drop 1, gbxData2.drop 1, gbxFooterRow.drop 1] } :=
  rfl

/-- C3: on the Stage-A MT table with the open and close legs of order 5, the
MT aggregator returns exactly one row, keyed by `5`, with `OpenTime`,
`OpenPrice`, `Type`, `Volume`, `SL`, `TP` from the first leg, `CloseTime`,
`ClosePrice`, `Profit` from the last leg, blank `Symbol`, and `Commission`,
`Taxes`, `Swap` all zero. -/
theorem C3_mt_aggregation_example :
    transform_mt4_to_gbx mtStageA =
      .ok { idxName := some "#", index := ["5"], cols := CANONICAL_OPS_COLUMNS,
            rows := [["2020.01.02 10:00", "Buy", "0.10", "", "1.1000", "1.0900",
                      "1.1200", "2020.01.03 16:00", "1.1050", "0", "0", "0", "50"]] } :=
  rfl

/-- C4 (code bug): on a Stage-A table whose order 5 has exactly one row, the
MT aggregator reports no failure at all — it silently returns one row whose
open-side and close-side fields are both drawn from that single row
(`OpenTime` = `CloseTime` and `OpenPrice` = `ClosePrice` below), because
`df[col][0]` and `df[col][-1]` both resolve to the group's only row. -/
theorem C4_single_leg_order_silently_duplicated :
    transform_mt4_to_gbx mtStageASingle = .ok mtSingleOut
    ∧ (mtSingleOut.rows.headD []).getD 0 "" = (mtSingleOut.rows.headD []).getD 7 ""
    ∧ (mtSingleOut.rows.headD []).getD 4 "" = (mtSingleOut.rows.headD []).getD 8 "" :=
  ⟨rfl, rfl, rfl⟩

/-- C5 (code bug): on a GBX raw table left with zero rows after dropping the
4 header rows and removing the sentinel rows, the normalizer crashes with an
uncaught generic `IndexError` (from `unique()[0]` on an empty column) instead
of reporting an empty-report condition. -/
theorem C5_gbx_empty_after_pruning_is_indexError :
    extract_gbx_operations_information gbxRawEmpty = .error .indexError :=
  rfl

/-- C8 (code bug): the MT entry point returns the normalizer's text table
unchanged — the `OpenTime` cell is still the raw string
`"2020.01.02 10:00"` and the `OpenPrice` cell the raw string `"1.1000"` —
because the type-coercion step is a `TODO` in the source and never invoked,
contradicting the entry points' own docstrings. -/
theorem C8_entry_points_return_untyped_text :
    get_mt4_operations [[["x"]], mtRawDemo] = .ok mtAggOut
    ∧ (mtAggOut.rows.headD []).getD 0 "" = "2020.01.02 10:00"
    ∧ (mtAggOut.rows.headD []).getD 4 "" = "1.1000" :=
  ⟨rfl, rfl, rfl⟩

/-- C9 (code bug): Stage A drops the raw table's first row, keeps every
remaining data cell unchanged, and sets the `#` column as the index, but the
10-name MT column set it assigns ends in the misspelled name `"Balace"`, not
`"Balance"` as the claim (and the source's own commented-out `BALANCE_COL`
constant) spell it. -/
theorem C9_stage_a_misspells_balance_column :
    extract_mt4_operations_information mtRawDemo = .ok mtStageA
    ∧ mtStageA.cols =
        ["Time", "Type", "Order#", "Volume", "Price", "SL", "TP", "Profit", "Balace"]
    ∧ "Balance" ∉ mtStageA.cols :=
  ⟨rfl, rfl, by decide⟩

/-- C6: on the header table with symbol field `AUDJPY (AUD/JPY)`, the dates
`2020.01.01`, `2020.06.01`, `2020.06.02`, `2020.06.02 14:30`, the timeframe
token `(H4)` and the parameters `Lots=0.10;Risk=2`, the header parser
returns `Symbol="AUDJPY"`, `TF="H4"`, the four timestamps assigned in that
order to `HistBeginning`, `HistEnding`, `BTBeginning`, `BTEnding`, and the
parameter map `Lots` to `0.10`, `Risk` to `2`. -/
theorem C6_header_round_trip :
    extract_header_information mtHeaderDemo =
      .ok { Symbol := "AUDJPY", TF := "H4",
            HistBeginning := ⟨2020, 1, 1, 0, 0⟩,
            HistEnding := ⟨2020, 6, 1, 0, 0⟩,
            BTBeginning := ⟨2020, 6, 2, 0, 0⟩,
            BTEnding := ⟨2020, 6, 2, 14, 30⟩,
            EAParams := [("Lots", "0.10"), ("Risk", "2")] } :=
  rfl

/-- C7 (code bug): on a header with fewer than four date matches, with zero
timeframe matches, or with a non-empty parameter fragment lacking `=`, the
header parser does not guess missing fields — but it fails with the generic
builtin exceptions `IndexError` (from `dates_as_dt[...]` or `findall(...)[0]`)
and `ValueError` (from tuple unpacking of `split('=')`), not with a distinct
malformed-header condition a caller could tell apart from any other defect. -/
theorem C7_malformed_header_generic_exceptions :
    extract_header_information mtHeaderThreeDates = .error .indexError
    ∧ extract_header_information mtHeaderNoTF = .error .indexError
    ∧ extract_header_information mtHeaderBadParam = .error .valueError :=
  ⟨rfl, rfl, rfl⟩

/-! ## Currency pair value type (`src/currency/forexpair.py`) -/

/-- The `Symbol` currency enumeration from `src/currency/money.py`. -/
inductive Symbol where
  | AUD | BGN | CAD | CHF | CZK | DKK | EUR | GBP | HKD | HUF | ILS | JPY
  | MXN | NOK | PLN | RON | RUB | SEK | SGD | TRY | USD | NZD | ZAR
deriving DecidableEq

/-- The `InvalidFXPair` exception: carries its message string. -/
structure InvalidFXPair where
  message : String
deriving DecidableEq

/-- The `FXPair` dataclass fields. -/
structure FXPair where
  base_cur : Symbol
  quote_cur : Symbol
  pip_size : Int
deriving DecidableEq

/-- `FXPair.__init__`: raises `InvalidFXPair` when base and quote currencies
coincide, otherwise stores the three fields. -/
def FXPair.init (base_cur quote_cur : Symbol) (pip_size : Int) :
    Except InvalidFXPair FXPair :=
  if base_cur = quote_cur then
    .error ⟨"Base and quote currencies must be different"⟩
  else
    .ok ⟨base_cur, quote_cur, pip_size⟩

/-- `FXPair.swap_base_and_quote`: exchanges the two currency fields. -/
def FXPair.swap_base_and_quote (p : FXPair) : FXPair :=
  ⟨p.quote_cur, p.base_cur, p.pip_size⟩

/-- The class invariant: base and quote currencies differ. -/
def FXPair.valid (p : FXPair) : Prop :=
  p.base_cur ≠ p.quote_cur

/-- C10: the constructor raises `InvalidFXPair` exactly when `base_cur`
equals `quote_cur`; every successfully constructed pair satisfies the
invariant; and `swap_base_and_quote` exchanges the two currency fields,
leaves `pip_size` unchanged, and preserves the invariant. -/
theorem C10_fxpair_invariant :
    (∀ b q : Symbol, ∀ n : Int,
      (FXPair.init b q n = .error ⟨"Base and quote currencies must be different"⟩) ↔ b = q)
    ∧ (∀ b q : Symbol, ∀ n : Int, ∀ p : FXPair,
        FXPair.init b q n = .ok p →
          p.valid ∧ p.base_cur = b ∧ p.quote_cur = q ∧ p.pip_size = n)
    ∧ (∀ p : FXPair, p.valid →
        p.swap_base_and_quote.valid
        ∧ p.swap_base_and_quote.base_cur = p.quote_cur
        ∧ p.swap_base_and_quote.quote_cur = p.base_cur
        ∧ p.swap_base_and_quote.pip_size = p.pip_size) := by
  refine ⟨?_, ?_, ?_⟩
  · intro b q n
    constructor
    · intro h
      by_contra hne
      simp [FXPair.init, hne] at h
    · intro h
      simp [FXPair.init, h]
  · intro b q n p h
    by_cases hbq : b = q
    · simp [FXPair.init, hbq] at h
    · simp [FXPair.init, hbq] at h
      subst h
      exact ⟨hbq, rfl, rfl, rfl⟩
  · intro p hp
    exact ⟨fun h => hp h.symm, rfl, rfl, rfl⟩

/-- Witness for C10 at the pair EUR/USD with pip size 5 (and its swap). -/
theorem C10_fxpair_invariant_witness :
    (FXPair.init Symbol.EUR Symbol.USD 5 = .ok ⟨Symbol.EUR, Symbol.USD, 5⟩)
    ∧ FXPair.valid ⟨Symbol.EUR, Symbol.USD, 5⟩
    ∧ (FXPair.swap_base_and_quote ⟨Symbol.EUR, Symbol.USD, 5⟩).valid := by
  have h := C10_fxpair_invariant
  have h2 := h.2.1 Symbol.EUR Symbol.USD 5 ⟨Symbol.EUR, Symbol.USD, 5⟩ rfl
  have h3 := h.2.2 ⟨Symbol.EUR, Symbol.USD, 5⟩ h2.1
  exact ⟨rfl, h2.1, h3.1⟩

end AlgoTrader
